import Mathlib

/-!
Verification of the Recipe Matching & Generation Engine.

The development shallowly embeds the Python source of the repository:
the dietary matcher, the ingredient scorer and the preference ranker from
`app.py` (functionally identical copies live in `cli.py`), and the fallback
recipe generator plus the JSON response extractor from `ai_service.py`.

Python dictionaries holding recipe data are embedded as structures whose
fields are `Option`-valued: `none` models an absent key, and `.get(k, d)`
becomes `Option.getD`.  A bracket access `d[k]`, which raises `KeyError`
on an absent key, is embedded as a fallible (`Option`-returning) access.
Floating point scores are embedded as exact rationals: every score in the
source is built from the decimal literals 0.6, 0.7, 0.8, 0.4 and one
division, and the claims under scrutiny are order/interval claims that the
rational semantics expresses directly.  Python's stable `list.sort` with
`reverse=True` is embedded as `List.insertionSort` with the reflexive
"greater or equal score" relation, which Mathlib proves sorted and stable;
any two stable sorts of the same key agree, so this is the order Python
produces.
-/

namespace RecipeEngine

/-- Python `s.lower()` (ASCII case folding, which is all the corpus uses),
written over the character list so that it evaluates by kernel reduction. -/
def pyLower (s : String) : String := ⟨s.data.map Char.toLower⟩

/-- Python `needle in hay` for strings: substring containment. -/
def strIn (needle hay : String) : Bool := decide (needle.data <:+: hay.data)

/-- Truthiness of `preferences.get(k)`: the key is present and non-empty. -/
def prefTruthy : Option String → Bool
  | none => false
  | some s => !s.isEmpty

/-- The `dietary_info` dictionary: seven optional boolean flags, read with
`.get(flag, False)`. -/
structure DietaryInfo where
  vegetarian : Option Bool := none
  vegan : Option Bool := none
  gluten_free : Option Bool := none
  dairy_free : Option Bool := none
  nut_free : Option Bool := none
  low_carb : Option Bool := none
  keto : Option Bool := none
deriving Repr, DecidableEq

/-- A recipe dictionary.  Every key may be absent (`none`). -/
structure Recipe where
  id : Option Int := none
  name : Option String := none
  cuisine : Option String := none
  meal_type : Option String := none
  difficulty : Option String := none
  prep_time : Option Int := none
  cook_time : Option Int := none
  servings : Option Int := none
  ingredients : Option (List String) := none
  steps : Option (List String) := none
  dietary_info : Option DietaryInfo := none
  tags : Option (List String) := none
  ai_generated : Option Bool := none
deriving Repr, DecidableEq

/-- The `preferences` dictionary: three optional strings. -/
structure Preferences where
  cuisine : Option String := none
  meal_type : Option String := none
  difficulty : Option String := none
deriving Repr, DecidableEq

/-- One entry of the list built by `filter_recipes`. -/
structure ScoredCandidate where
  recipe : Recipe
  score : ℚ
  ingredient_match : ℚ
  preference_match : ℚ
deriving Repr, DecidableEq

/-- The boolean read `recipe_dietary.get(flag, False)`. -/
def flag (o : Option Bool) : Bool := o.getD false

/-- The check the matcher runs for one restriction label (already lowered):
a recognized label must be declared by the dietary flag or by an exact tag;
an unrecognized label always passes.  This is the loop body of
`matches_dietary_restrictions` (`app.py` lines 33-56). -/
def restrictionOk (d : DietaryInfo) (recipe_tags : List String) (rl : String) : Bool :=
  if rl == "vegetarian" then flag d.vegetarian || recipe_tags.contains "vegetarian"
  else if rl == "vegan" then flag d.vegan || recipe_tags.contains "vegan"
  else if rl == "gluten-free" then flag d.gluten_free || recipe_tags.contains "gluten-free"
  else if rl == "dairy-free" then flag d.dairy_free || recipe_tags.contains "dairy-free"
  else if rl == "nut-free" then flag d.nut_free || recipe_tags.contains "nut-free"
  else if rl == "low-carb" then flag d.low_carb || recipe_tags.contains "low-carb"
  else if rl == "keto" then flag d.keto || recipe_tags.contains "keto"
  else true

/-- `matches_dietary_restrictions(recipe, restrictions)` (`app.py` 25-58,
`cli.py` 16-37): empty restrictions pass; otherwise every restriction,
lowered, must pass `restrictionOk` against the recipe's `dietary_info`
(default `{}`) and `tags` (default `[]`). -/
def matches_dietary_restrictions (recipe : Recipe) (restrictions : List String) : Bool :=
  if restrictions.isEmpty then true
  else
    let recipe_tags := recipe.tags.getD []
    let recipe_dietary := recipe.dietary_info.getD {}
    restrictions.all fun restriction => restrictionOk recipe_dietary recipe_tags (pyLower restriction)

/-- One recipe ingredient (already lowered) counts as available when some
lowered owned ingredient contains it or is contained in it
(`any(avail in ing or ing in avail ...)`, `app.py` line 69). -/
def ingredientAvailable (available_lower : List String) (ing : String) : Bool :=
  available_lower.any fun avail => strIn avail ing || strIn ing avail

/-- The number of recipe ingredients counted as available (`app.py` line 69). -/
def matchingCount (recipe : Recipe) (available_ingredients : List String) : Nat :=
  let recipe_ingredients := (recipe.ingredients.getD []).map pyLower
  let available_lower := available_ingredients.map pyLower
  recipe_ingredients.countP fun ing => ingredientAvailable available_lower ing

/-- `calculate_ingredient_match_score(recipe, available_ingredients)`
(`app.py` 61-81, `cli.py` 40-52): 1.0 for an empty owned list, 0.0 for a
recipe with no ingredients, otherwise matched/total with the perfect-match
case forced to 1.0. -/
def calculate_ingredient_match_score (recipe : Recipe) (available_ingredients : List String) : ℚ :=
  if available_ingredients.isEmpty then 1
  else
    let matching := matchingCount recipe available_ingredients
    let total := (recipe.ingredients.getD []).length
    if total = 0 then 0
    else
      let score : ℚ := (matching : ℚ) / (total : ℚ)
      if matching = total then 1 else score

/-- The per-recipe body of the ranking loop (`app.py` 92-135): ingredient
score, the three soft preference checks, the multiplicative preference
score and the weighted composite. -/
def scoreRecipe (preferences : Preferences) (available_ingredients : List String)
    (recipe : Recipe) : ScoredCandidate :=
  let match_score := calculate_ingredient_match_score recipe available_ingredients
  let cuisine_match :=
    if prefTruthy preferences.cuisine then
      strIn (pyLower (preferences.cuisine.getD "")) (pyLower (recipe.cuisine.getD ""))
    else true
  let meal_type_match :=
    if prefTruthy preferences.meal_type then
      strIn (pyLower (preferences.meal_type.getD "")) (pyLower (recipe.meal_type.getD ""))
    else true
  let difficulty_match :=
    if prefTruthy preferences.difficulty then
      pyLower (recipe.difficulty.getD "") == pyLower (preferences.difficulty.getD "")
    else true
  let preference_score : ℚ := 1
  let preference_score := if cuisine_match then preference_score else preference_score * 0.7
  let preference_score := if meal_type_match then preference_score else preference_score * 0.7
  let preference_score := if difficulty_match then preference_score else preference_score * 0.8
  let final_score := match_score * 0.6 + preference_score * 0.4
  { recipe := recipe, score := final_score,
    ingredient_match := match_score, preference_match := preference_score }

/-- The descending-score order used by `filtered.sort(key=..., reverse=True)`. -/
def scoreGE (a b : ScoredCandidate) : Prop := b.score ≤ a.score

instance : DecidableRel scoreGE := fun a b => inferInstanceAs (Decidable (b.score ≤ a.score))

instance : IsTotal ScoredCandidate scoreGE := ⟨fun a b => le_total b.score a.score⟩

instance : IsTrans ScoredCandidate scoreGE := ⟨fun _ _ _ h h' => le_trans h' h⟩

/-- The candidate list of `filter_recipes` before sorting (`app.py` 85-135):
dietary-rejected recipes are skipped, the rest are scored in corpus order. -/
def candidateList (recipes : List Recipe) (preferences : Preferences)
    (dietary_restrictions : List String) (available_ingredients : List String) :
    List ScoredCandidate :=
  recipes.filterMap fun recipe =>
    if matches_dietary_restrictions recipe dietary_restrictions then
      some (scoreRecipe preferences available_ingredients recipe)
    else none

/-- `filter_recipes(recipes, preferences, dietary_restrictions,
available_ingredients)` (`app.py` 84-139, `cli.py` 55-89): score the
surviving recipes, then sort by score, highest first, with Python's
stable sort. -/
def filter_recipes (recipes : List Recipe) (preferences : Preferences)
    (dietary_restrictions : List String) (available_ingredients : List String) :
    List ScoredCandidate :=
  (candidateList recipes preferences dietary_restrictions available_ingredients).insertionSort scoreGE

/-- `list(set(ingredients))` (`ai_service.py` line 84).  CPython's set order
is hash-seed dependent, so only the underlying set of this list is
determined by the source; the embedding fixes the first-occurrence order
and every claim below uses only membership, which is order-independent. -/
def pySetList (l : List String) : List String := l.eraseDups

namespace FallbackAIGenerator

/-- The cuisine-to-flavor-ingredients lookup table (`ai_service.py` 50-56). -/
def cuisineIngredients (cuisine : String) : Option (List String) :=
  if cuisine == "Italian" then some ["tomatoes", "basil", "parmesan cheese"]
  else if cuisine == "Indian" then some ["curry powder", "turmeric", "cumin"]
  else if cuisine == "Japanese" then some ["soy sauce", "ginger", "sesame oil"]
  else if cuisine == "Mexican" then some ["cilantro", "lime", "cumin"]
  else if cuisine == "Mediterranean" then some ["lemon", "oregano", "olives"]
  else none

/-- The fixed six-step procedure every fallback recipe gets (`ai_service.py` 62-69). -/
def fixedSteps : List String :=
  ["Prepare all ingredients. Wash and chop vegetables if needed.",
   "Heat oil in a pan over medium heat. Add aromatics and cook until fragrant.",
   "Add main ingredients and cook for 5-7 minutes until tender.",
   "Season with salt, pepper, and spices to taste.",
   "Stir everything together and cook for another 2-3 minutes.",
   "Serve hot, garnished with fresh herbs if available."]

/-- `FallbackAIGenerator.generate_recipe` (`ai_service.py` 23-97). -/
def generate_recipe (preferences : Preferences) (dietary_restrictions : List String)
    (available_ingredients : List String) : Recipe :=
  let cuisine := preferences.cuisine.getD "International"
  let meal_type := preferences.meal_type.getD "Dinner"
  let difficulty := preferences.difficulty.getD "Easy"
  let is_vegan := dietary_restrictions.contains "vegan"
  let is_vegetarian := dietary_restrictions.contains "vegetarian" || is_vegan
  let is_gluten_free := dietary_restrictions.contains "gluten-free"
  let is_dairy_free := dietary_restrictions.contains "dairy-free" || is_vegan
  let base_name := cuisine ++ " " ++ meal_type
  let base_name := if is_vegetarian then "Vegetarian " ++ base_name else base_name
  let base_name := if is_gluten_free then "Gluten-Free " ++ base_name else base_name
  let recipe_name := if meal_type == "Lunch" then base_name ++ " Bowl" else base_name ++ " Dish"
  let ingredients :=
    if available_ingredients.isEmpty then ["olive oil", "garlic", "salt", "pepper"]
    else available_ingredients.take 5
  let ingredients :=
    match cuisineIngredients cuisine with
    | some extra => ingredients ++ extra.take 2
    | none => ingredients
  let prep_time : Int := if difficulty == "Easy" then 10 else if difficulty == "Medium" then 15 else 20
  let cook_time : Int := if difficulty == "Easy" then 15 else if difficulty == "Medium" then 25 else 35
  { id := some 9999,
    name := some recipe_name,
    cuisine := some cuisine,
    meal_type := some meal_type,
    difficulty := some difficulty,
    prep_time := some prep_time,
    cook_time := some cook_time,
    servings := some 4,
    ingredients := some (pySetList ingredients),
    steps := some fixedSteps,
    dietary_info := some
      { vegetarian := some is_vegetarian,
        vegan := some is_vegan,
        gluten_free := some is_gluten_free,
        dairy_free := some is_dairy_free,
        nut_free := some true,
        low_carb := some (dietary_restrictions.contains "low-carb"),
        keto := some (dietary_restrictions.contains "keto") },
    tags := some (dietary_restrictions ++ ["ai-generated"]),
    ai_generated := some true }

/-- The substitution pass of `adapt_recipe` (`ai_service.py` 105-109): each
`old -> new` pair, in dictionary order, rewrites every ingredient whose
lowering equals the lowering of `old`. -/
def applySubstitutions (substitutions : List (String × String))
    (ingredients : List String) : List String :=
  substitutions.foldl
    (fun acc p => acc.map fun ing => if pyLower ing == pyLower p.1 then p.2 else ing)
    ingredients

/-- The availability pass of `adapt_recipe` (`ai_service.py` 112-115): an
ingredient whose lowering is not among the lowered owned ingredients is
replaced by the first owned ingredient, when there is one. -/
def replaceUnavailable (available_ingredients : List String)
    (ingredients : List String) : List String :=
  ingredients.map fun ing =>
    if (available_ingredients.map pyLower).contains (pyLower ing) then ing
    else
      match available_ingredients with
      | [] => ing
      | first :: _ => first

/-- `FallbackAIGenerator.adapt_recipe` (`ai_service.py` 99-121).  The line
`adapted['name'] = f"{adapted['name']} (Adapted)"` subscripts the copied
dictionary, so a recipe without a `name` key raises `KeyError`: that path
is embedded as `none`.  Every other field read uses `.get` with a default. -/
def adapt_recipe (recipe : Recipe) (available_ingredients : List String)
    (substitutions : List (String × String)) : Option Recipe :=
  let adapted_ingredients :=
    replaceUnavailable available_ingredients
      (applySubstitutions substitutions (recipe.ingredients.getD []))
  match recipe.name with
  | none => none
  | some n =>
      some { recipe with
              ingredients := some adapted_ingredients,
              name := some (n ++ " (Adapted)"),
              ai_generated := some true }

/-- `FallbackAIGenerator.generate_cooking_tips` (`ai_service.py` 123-139). -/
def generate_cooking_tips (recipe : Recipe) : List String :=
  let difficulty := recipe.difficulty.getD "Easy"
  let meal_type := recipe.meal_type.getD "Dinner"
  let tips :=
    ["Always prep your ingredients before you start cooking (mise en place).",
     "For " ++ pyLower difficulty ++ " recipes, read through all steps before beginning.",
     "Taste and adjust seasoning as you cook, not just at the end."]
  if meal_type == "Breakfast" then
    tips ++ ["Prep can be done the night before to save morning time."]
  else if meal_type == "Dinner" then
    tips ++ ["Let proteins rest for a few minutes after cooking for better juiciness."]
  else tips

end FallbackAIGenerator

/-! ### The response extractor (`GeminiGenerator._parse_json_from_response`)

`json.loads` is embedded as a recursive-descent parser over `List Char`
following the `json` module's grammar: objects, arrays, strings with the
standard escapes, `true`/`false`/`null`, and numbers `-?(0|[1-9]\d*)`
with optional fraction and exponent, valued exactly in `ℚ`.  The float
constants `NaN`/`Infinity`, which no claim touches and which have no exact
rational value, are the one part of the grammar left out.  Python dict
display semantics (last duplicate key wins, first position kept) are
mirrored in `dictSet`. -/

/-- A parsed JSON value. -/
inductive Json where
  | null
  | bool (b : Bool)
  | num (q : ℚ)
  | str (s : String)
  | arr (items : List Json)
  | obj (entries : List (String × Json))
deriving Repr

/-- Python dict assignment `d[k] = v`: overwrite in place or append. -/
def dictSet (entries : List (String × Json)) (k : String) (v : Json) :
    List (String × Json) :=
  if entries.any fun p => p.1 == k then
    entries.map fun p => if p.1 == k then (k, v) else p
  else entries ++ [(k, v)]

/-- JSON whitespace skipping (space, tab, newline, carriage return). -/
def skipWs : List Char → List Char
  | [] => []
  | c :: cs => if c == ' ' || c == '\t' || c == '\n' || c == '\r' then skipWs cs else c :: cs

/-- Value of one hex digit, if it is one (digit / lowercase / uppercase
ranges by code point). -/
def hexDigit (c : Char) : Option Nat :=
  let n := c.toNat
  if 48 ≤ n ∧ n ≤ 57 then some (n - 48)
  else if 97 ≤ n ∧ n ≤ 102 then some (n - 87)
  else if 65 ≤ n ∧ n ≤ 70 then some (n - 55)
  else none

/-- The code point named by the four hex digits of a `\uXXXX` escape,
accumulated left to right. -/
def hexQuad (a b c d : Char) : Option Nat :=
  [a, b, c, d].foldl
    (fun acc ch => acc.bind fun v => (hexDigit ch).map fun w => 16 * v + w)
    (some 0)

/-- The single-character JSON string escapes. -/
def escChar (e : Char) : Option Char :=
  if e == '"' then some '"'
  else if e == '\\' then some '\\'
  else if e == '/' then some '/'
  else if e == 'b' then some (Char.ofNat 8)
  else if e == 'f' then some (Char.ofNat 12)
  else if e == 'n' then some '\n'
  else if e == 'r' then some '\r'
  else if e == 't' then some '\t'
  else none

/-- JSON string body after the opening quote; `acc` holds the decoded
characters in reverse.  Unescaped control characters are rejected, as in
the `json` module's strict mode. -/
def jString : List Char → List Char → Option (String × List Char)
  | [], _ => none
  | c :: cs, acc =>
    if c == '"' then some (⟨acc.reverse⟩, cs)
    else if c == '\\' then
      match cs with
      | [] => none
      | e :: r =>
        if e == 'u' then
          match r with
          | a :: b :: c2 :: d :: r2 =>
            match hexQuad a b c2 d with
            | some n => jString r2 (Char.ofNat n :: acc)
            | none => none
          | _ => none
        else
          match escChar e with
          | some ch => jString r (ch :: acc)
          | none => none
    else if c.toNat < 32 then none
    else jString cs (c :: acc)

/-- Longest leading run of decimal digits. -/
def takeDigits : List Char → List Char × List Char
  | [] => ([], [])
  | c :: cs =>
    if c.isDigit then
      let p := takeDigits cs
      (c :: p.1, p.2)
    else ([], c :: cs)

/-- Numeric value of a digit run. -/
def digitsToNat (ds : List Char) : Nat :=
  ds.foldl (fun a c => 10 * a + (c.toNat - 48)) 0

/-- The unsigned part of a JSON number: integer run, then an optional
well-formed fraction and exponent. -/
def jMagnitude : List Char → Option (ℚ × List Char)
  | [] => none
  | c :: cs =>
    if !c.isDigit then none
    else
      let intPart : List Char × List Char :=
        if c == '0' then ([c], cs) else takeDigits (c :: cs)
      let fracPart : List Char × List Char :=
        match intPart.2 with
        | '.' :: r =>
          match takeDigits r with
          | (d :: ds, r2) => (d :: ds, r2)
          | ([], _) => ([], intPart.2)
        | _ => ([], intPart.2)
      let expPart : Int × List Char :=
        match fracPart.2 with
        | e :: r =>
          if e == 'e' || e == 'E' then
            match r with
            | '+' :: r2 =>
              (match takeDigits r2 with
               | (d :: ds, r3) => ((digitsToNat (d :: ds) : Int), r3)
               | ([], _) => (0, fracPart.2))
            | '-' :: r2 =>
              (match takeDigits r2 with
               | (d :: ds, r3) => (-(digitsToNat (d :: ds) : Int), r3)
               | ([], _) => (0, fracPart.2))
            | _ =>
              (match takeDigits r with
               | (d :: ds, r3) => ((digitsToNat (d :: ds) : Int), r3)
               | ([], _) => (0, fracPart.2))
          else (0, fracPart.2)
        | [] => (0, fracPart.2)
      let mantissa : ℚ := (digitsToNat (intPart.1 ++ fracPart.1) : ℚ)
      let scaled : ℚ := mantissa / (10 : ℚ) ^ fracPart.1.length * (10 : ℚ) ^ expPart.1
      some (scaled, expPart.2)

/-- A JSON number, per the `json` module's regex
`-?(0|[1-9]\d*)(\.\d+)?([eE][+-]?\d+)?`: value taken exactly in `ℚ`,
sign dispatched first. -/
def jNumber (s : List Char) : Option (Json × List Char) :=
  match s with
  | '-' :: rest => (jMagnitude rest).map fun p => (Json.num (-p.1), p.2)
  | _ => (jMagnitude s).map fun p => (Json.num p.1, p.2)

/-- The three recursion modes of the JSON value parser. -/
inductive JsonTask where
  | value (s : List Char)
  | members (s : List Char) (acc : List (String × Json))
  | items (s : List Char) (acc : List Json)

/-- The recursive-descent core of `json.loads`, structurally recursive on a
fuel bound (each recursive call follows at least one consumed character,
so `length + 1` calls always suffice). -/
def jParse : Nat → JsonTask → Option (Json × List Char)
  | 0, _ => none
  | fuel + 1, .value s =>
    match s with
    | [] => none
    | c :: cs =>
      if c == '{' then
        match skipWs cs with
        | '}' :: r => some (.obj [], r)
        | t => jParse fuel (.members t [])
      else if c == '[' then
        match skipWs cs with
        | ']' :: r => some (.arr [], r)
        | t => jParse fuel (.items t [])
      else if c == '"' then
        match jString cs [] with
        | some p => some (.str p.1, p.2)
        | none => none
      else if c == 't' then
        match cs with
        | 'r' :: 'u' :: 'e' :: r => some (.bool true, r)
        | _ => none
      else if c == 'f' then
        match cs with
        | 'a' :: 'l' :: 's' :: 'e' :: r => some (.bool false, r)
        | _ => none
      else if c == 'n' then
        match cs with
        | 'u' :: 'l' :: 'l' :: r => some (.null, r)
        | _ => none
      else jNumber (c :: cs)
  | fuel + 1, .members s acc =>
    match s with
    | '"' :: cs =>
      match jString cs [] with
      | none => none
      | some (key, r) =>
        match skipWs r with
        | ':' :: r2 =>
          match jParse fuel (.value (skipWs r2)) with
          | none => none
          | some (v, r3) =>
            match skipWs r3 with
            | ',' :: r4 => jParse fuel (.members (skipWs r4) (dictSet acc key v))
            | '}' :: r4 => some (.obj (dictSet acc key v), r4)
            | _ => none
        | _ => none
    | _ => none
  | fuel + 1, .items s acc =>
    match jParse fuel (.value s) with
    | none => none
    | some (v, r) =>
      match skipWs r with
      | ',' :: r2 => jParse fuel (.items (skipWs r2) (acc ++ [v]))
      | ']' :: r2 => some (.arr (acc ++ [v]), r2)
      | _ => none

/-- `json.loads(s)`: one JSON value surrounded only by whitespace. -/
def json_loads (s : List Char) : Option Json :=
  let t := skipWs s
  match jParse (2 * t.length + 2) (.value t) with
  | some (v, r) => if (skipWs r).isEmpty then some v else none
  | none => none

/-- The span found by `re.search(r'\{.*\}', text, re.DOTALL)`
(`ai_service.py` line 167): from the first `{` to the last `}` after it,
or nothing when no such pair exists. -/
def objectSpan (s : List Char) : Option (List Char) :=
  let fromBrace := s.dropWhile fun c => !(c == '{')
  let span := (fromBrace.reverse.dropWhile fun c => !(c == '}')).reverse
  if span.isEmpty then none else some span

/-- One inner `\[[^\[\]]*\]` group of the array regex: bracket-free
characters up to a closing bracket; a nested opening bracket or the end of
input fails the group. -/
def arrInnerGroup : List Char → Option (List Char × List Char)
  | [] => none
  | c :: cs =>
    if c == ']' then some ([']'], cs)
    else if c == '[' then none
    else
      match arrInnerGroup cs with
      | some p => some (c :: p.1, p.2)
      | none => none

/-- The tail of an array-regex match after its opening bracket: alternating
bracket-free runs and one-level inner groups, ended by the closing
bracket.  Fueled by the input length. -/
def arrOuter : Nat → List Char → Option (List Char)
  | 0, _ => none
  | _, [] => none
  | fuel + 1, c :: cs =>
    if c == ']' then some [']']
    else if c == '[' then
      match arrInnerGroup cs with
      | none => none
      | some p =>
        match arrOuter fuel p.2 with
        | some m => some (c :: p.1 ++ m)
        | none => none
    else
      match arrOuter fuel cs with
      | some m => some (c :: m)
      | none => none

/-- The span found by `re.search(r'\[[^\[\]]*(?:\[[^\[\]]*\][^\[\]]*)*\]',
text, re.DOTALL)` (`ai_service.py` line 176): the first opening bracket
from which a one-level-nested array span completes. -/
def arraySpan : List Char → Option (List Char)
  | [] => none
  | c :: cs =>
    if c == '[' then
      match arrOuter (cs.length + 1) cs with
      | some m => some (c :: m)
      | none => arraySpan cs
    else arraySpan cs

namespace GeminiGenerator

/-- `GeminiGenerator._parse_json_from_response` (`ai_service.py` 160-185):
empty text yields nothing; otherwise the object span is parsed, and if
that fails (no span or a `JSONDecodeError`) the array span is parsed, and
if that also fails the result is `None` — never an exception. -/
def parse_json_from_response (response_text : String) : Option Json :=
  if response_text.isEmpty then none
  else
    let s := response_text.data
    let objResult :=
      match objectSpan s with
      | some span => json_loads span
      | none => none
    match objResult with
    | some v => some v
    | none =>
      match arraySpan s with
      | some span => json_loads span
      | none => none

end GeminiGenerator

/-- The outcome of the external model call inside `GeminiGenerator`
(`self.model.generate_content(...)`): either an exception (network, auth,
quota — all handled by `except Exception`) or a text blob. -/
inductive GeminiResponse where
  | failure
  | text (s : String)

/-- Python truthiness of a parsed JSON value (`if recipe_data:`). -/
def jsonTruthy : Json → Bool
  | .null => false
  | .bool b => b
  | .num q => decide (q ≠ 0)
  | .str s => !s.isEmpty
  | .arr items => !items.isEmpty
  | .obj entries => !entries.isEmpty

/-- What `GeminiGenerator.generate_recipe` hands back: the model's parsed
dictionary, or the deterministic fallback recipe. -/
inductive GenerateResult where
  | fromModel (j : Json)
  | fromFallback (r : Recipe)

namespace GeminiGenerator

/-- `GeminiGenerator.generate_recipe` (`ai_service.py` 187-250), with the
remote call abstracted into a `GeminiResponse` argument.  A raised
exception, an unextractable or falsy response, and a non-dictionary
response (whose `recipe_data['id'] = 9999` raises `TypeError` inside the
same `try`) all degrade to the fallback generator; a parsed dictionary is
returned with its `id` forced to 9999. -/
def generate_recipe (response : GeminiResponse) (preferences : Preferences)
    (dietary_restrictions : List String) (available_ingredients : List String) :
    GenerateResult :=
  match response with
  | .failure =>
      .fromFallback
        (FallbackAIGenerator.generate_recipe preferences dietary_restrictions
          available_ingredients)
  | .text s =>
    match parse_json_from_response s with
    | some data =>
      if jsonTruthy data then
        match data with
        | .obj entries => .fromModel (.obj (dictSet entries "id" (.num 9999)))
        | _ =>
            .fromFallback
              (FallbackAIGenerator.generate_recipe preferences dietary_restrictions
                available_ingredients)
      else
        .fromFallback
          (FallbackAIGenerator.generate_recipe preferences dietary_restrictions
            available_ingredients)
    | none =>
        .fromFallback
          (FallbackAIGenerator.generate_recipe preferences dietary_restrictions
            available_ingredients)

end GeminiGenerator

/-! ### Spec-side statements

The definitions below restate what the specification's sentences say, in
the spec's own vocabulary, to be compared with the embedded code above. -/

/-- The recognized restriction vocabulary of the spec (all lowercase). -/
def recognizedLabels : List String :=
  ["vegetarian", "vegan", "gluten-free", "dairy-free", "nut-free", "low-carb", "keto"]

/-- The `dietary_info` boolean that corresponds to a lowered recognized
label (`false` for anything else). -/
def flagFor (d : DietaryInfo) (rl : String) : Bool :=
  if rl = "vegetarian" then flag d.vegetarian
  else if rl = "vegan" then flag d.vegan
  else if rl = "gluten-free" then flag d.gluten_free
  else if rl = "dairy-free" then flag d.dairy_free
  else if rl = "nut-free" then flag d.nut_free
  else if rl = "low-carb" then flag d.low_carb
  else if rl = "keto" then flag d.keto
  else false

/-- Spec reading of one restriction: a label whose lowering is recognized
must be declared by the corresponding dietary flag or by the lowered
label's presence in the tags. -/
def specRestrictionSatisfied (r : Recipe) (label : String) : Prop :=
  pyLower label ∈ recognizedLabels →
    flagFor (r.dietary_info.getD {}) (pyLower label) = true ∨ pyLower label ∈ r.tags.getD []

/-- Spec reading of an ingredient match: the case-folded recipe ingredient
contains, or is contained in, some case-folded owned ingredient. -/
def specIngredientMatched (available_ingredients : List String) (ing : String) : Prop :=
  ∃ av ∈ available_ingredients,
    (pyLower av).data <:+: (pyLower ing).data ∨ (pyLower ing).data <:+: (pyLower av).data

/-- Spec reading of the cuisine penalty: 0.7 when a non-empty requested
cuisine is not a case-insensitive substring of the recipe's cuisine. -/
def cuisineFactor (p : Preferences) (r : Recipe) : ℚ :=
  if prefTruthy p.cuisine
      && !(strIn (pyLower (p.cuisine.getD "")) (pyLower (r.cuisine.getD ""))) then 0.7 else 1

/-- Spec reading of the meal-type penalty: 0.7 under the same substring rule. -/
def mealTypeFactor (p : Preferences) (r : Recipe) : ℚ :=
  if prefTruthy p.meal_type
      && !(strIn (pyLower (p.meal_type.getD "")) (pyLower (r.meal_type.getD ""))) then 0.7 else 1

/-- Spec reading of the difficulty penalty: 0.8 when a non-empty requested
difficulty is not case-insensitively equal to the recipe's difficulty. -/
def difficultyFactor (p : Preferences) (r : Recipe) : ℚ :=
  if prefTruthy p.difficulty
      && !(pyLower (r.difficulty.getD "") == pyLower (p.difficulty.getD "")) then 0.8 else 1

/-! ### Concrete fixtures used by counterexamples and witnesses -/

/-- The preferences of the spec's concrete generation scenario. -/
def italianLunchEasy : Preferences :=
  { cuisine := some "Italian", meal_type := some "Lunch", difficulty := some "Easy" }

/-- A corpus recipe declared vegan (flag and tag) but not vegetarian. -/
def veganOnlyRecipe : Recipe :=
  { name := some "Agave Lemonade",
    dietary_info := some { vegan := some true },
    tags := some ["vegan"] }

/-- A recipe dictionary without a `name` key. -/
def namelessRecipe : Recipe :=
  { ingredients := some ["flour", "water"] }

/-- A small recipe used by witnesses: two ingredients, easy, Italian lunch. -/
def pastaRecipe : Recipe :=
  { id := some 1,
    name := some "Tomato Pasta",
    cuisine := some "Italian",
    meal_type := some "Lunch",
    difficulty := some "Easy",
    ingredients := some ["Tomatoes", "pasta"],
    dietary_info := some { vegetarian := some true },
    tags := some ["vegetarian"] }

end RecipeEngine
namespace RecipeEngine

lemma restrictionOk_iff (d : DietaryInfo) (tags : List String) (l : String) :
    restrictionOk d tags l = true ↔ (l ∈ recognizedLabels → flagFor d l = true ∨ l ∈ tags) := by
  simp only [restrictionOk, flagFor, recognizedLabels, beq_iff_eq]
  split_ifs with h1 h2 h3 h4 h5 h6 h7 <;>
    simp_all [List.elem_iff]

/-- C2: `matches_dietary_restrictions` holds exactly when every restriction
whose lowering lies in the recognized seven-label set is declared by the
corresponding `dietary_info` flag or by the label's presence in the tags;
an empty restriction list passes, unrecognized labels have no effect, and
(second conjunct) a recipe that is vegan by flag and tag but carries no
vegetarian flag or tag is rejected by the lone restriction "vegetarian":
vegan does not imply vegetarian at matching time. -/
theorem matches_dietary_iff :
    (∀ (r : Recipe) (R : List String),
        matches_dietary_restrictions r R = true ↔ ∀ l ∈ R, specRestrictionSatisfied r l) ∧
    matches_dietary_restrictions veganOnlyRecipe ["vegetarian"] = false := by
  constructor
  · intro r R
    rcases R with _ | ⟨x, xs⟩
    · simp [matches_dietary_restrictions]
    · rw [matches_dietary_restrictions, if_neg (by simp), List.all_eq_true]
      constructor
      · intro h l hl
        exact (restrictionOk_iff _ _ _).mp (h l hl)
      · intro h l hl
        exact (restrictionOk_iff _ _ _).mpr (h l hl)
  · decide

/-- C3: the ingredient scorer returns 1 for an empty owned list, 0 for a
non-empty owned list against a recipe without ingredients, and otherwise
matched/total with the matched = total case scored exactly 1; an
ingredient counts as matched exactly when some case-folded owned
ingredient contains it or is contained in it (bidirectional substring). -/
theorem ingredient_score_spec :
    ∀ (r : Recipe) (available : List String),
      (available = [] → calculate_ingredient_match_score r available = 1) ∧
      (available ≠ [] → r.ingredients.getD [] = [] →
        calculate_ingredient_match_score r available = 0) ∧
      (available ≠ [] → r.ingredients.getD [] ≠ [] →
        calculate_ingredient_match_score r available =
          (matchingCount r available : ℚ) / (((r.ingredients.getD []).length : ℚ)) ∧
        (matchingCount r available = (r.ingredients.getD []).length →
          calculate_ingredient_match_score r available = 1)) ∧
      (∀ ing, ingredientAvailable (available.map pyLower) (pyLower ing) = true ↔
        specIngredientMatched available ing) := by
  intro r available
  refine ⟨fun h => ?_, fun h h2 => ?_, fun h h2 => ?_, fun ing => ?_⟩
  · simp [calculate_ingredient_match_score, h]
  · have hne : available.isEmpty = false := by simp [List.isEmpty_iff, h]
    simp [calculate_ingredient_match_score, hne, matchingCount, h2]
  · have hne : available.isEmpty = false := by simp [List.isEmpty_iff, h]
    have hlen : (r.ingredients.getD []).length ≠ 0 := by
      simpa [List.length_eq_zero] using h2
    constructor
    · rw [calculate_ingredient_match_score, if_neg (by simp [hne])]
      simp only [matchingCount, List.length_map] at *
      rw [if_neg (by simpa [List.length_map] using hlen)]
      split_ifs with hm
      · rw [hm]
        rw [div_self (by exact_mod_cast hlen)]
      · rfl
    · intro hm
      rw [calculate_ingredient_match_score, if_neg (by simp [hne])]
      rw [if_neg (by simpa [List.length_map] using hlen)]
      rw [if_pos (by simpa [matchingCount, List.length_map] using hm)]
  · simp only [ingredientAvailable, specIngredientMatched, List.any_map, List.any_eq_true,
      Function.comp, strIn, Bool.or_eq_true, decide_eq_true_eq]

lemma matchingCount_le (r : Recipe) (a : List String) :
    matchingCount r a ≤ (r.ingredients.getD []).length := by
  unfold matchingCount
  exact le_trans (List.countP_le_length _) (by simp)

lemma im_nonneg (r : Recipe) (a : List String) :
    0 ≤ calculate_ingredient_match_score r a := by
  simp only [calculate_ingredient_match_score]
  split_ifs <;> positivity

lemma im_le_one (r : Recipe) (a : List String) :
    calculate_ingredient_match_score r a ≤ 1 := by
  simp only [calculate_ingredient_match_score]
  split_ifs with h1 h2 h3 <;> try norm_num
  have ht : (0 : ℚ) < (((r.ingredients.getD []).length : ℚ)) := by
    exact_mod_cast Nat.pos_of_ne_zero h2
  rw [div_le_one ht]
  exact_mod_cast matchingCount_le r a

lemma scoreRecipe_pm (p : Preferences) (a : List String) (r : Recipe) :
    (scoreRecipe p a r).preference_match =
      cuisineFactor p r * mealTypeFactor p r * difficultyFactor p r := by
  simp only [scoreRecipe, cuisineFactor, mealTypeFactor, difficultyFactor]
  cases hc : prefTruthy p.cuisine <;> cases hm : prefTruthy p.meal_type <;>
    cases hd : prefTruthy p.difficulty <;>
      simp [hc, hm, hd] <;> split_ifs <;> simp_all

lemma pm_bounds (p : Preferences) (a : List String) (r : Recipe) :
    0 < (scoreRecipe p a r).preference_match ∧ (scoreRecipe p a r).preference_match ≤ 1 := by
  rw [scoreRecipe_pm]
  unfold cuisineFactor mealTypeFactor difficultyFactor
  split_ifs <;> norm_num

lemma scoreRecipe_eq (p : Preferences) (a : List String) (r : Recipe) :
    (scoreRecipe p a r).score =
      (scoreRecipe p a r).ingredient_match * 0.6 + (scoreRecipe p a r).preference_match * 0.4 ∧
    (scoreRecipe p a r).ingredient_match = calculate_ingredient_match_score r a ∧
    (scoreRecipe p a r).recipe = r := by
  refine ⟨rfl, rfl, rfl⟩

/-- C1: every candidate that survives the dietary filter carries a
preference match equal to the product of the spec's three penalty factors
(0.7 cuisine substring, 0.7 meal-type substring, 0.8 difficulty equality),
a composite score equal to ingredient_match * 0.6 + preference_match * 0.4,
and that composite lies in [0, 1]. -/
theorem composite_score_spec :
    ∀ (recipes : List Recipe) (prefs : Preferences) (R available : List String)
      (c : ScoredCandidate), c ∈ filter_recipes recipes prefs R available →
      c.preference_match =
        cuisineFactor prefs c.recipe * mealTypeFactor prefs c.recipe *
          difficultyFactor prefs c.recipe ∧
      c.score = c.ingredient_match * 0.6 + c.preference_match * 0.4 ∧
      0 ≤ c.score ∧ c.score ≤ 1 := by
  intro recipes prefs R available c hc
  rw [filter_recipes, List.mem_insertionSort, candidateList, List.mem_filterMap] at hc
  obtain ⟨r, _, hr⟩ := hc
  split_ifs at hr with hd
  rw [Option.some_inj] at hr
  subst hr
  have him0 := im_nonneg r available
  have him1 := im_le_one r available
  have hpm := pm_bounds prefs available r
  have heq := scoreRecipe_eq prefs available r
  refine ⟨by rw [scoreRecipe_pm, heq.2.2], heq.1, ?_, ?_⟩
  · rw [heq.1, heq.2.1]
    nlinarith [hpm.1]
  · rw [heq.1, heq.2.1]
    nlinarith [hpm.2]

/-- C1 witness: the claim instantiated on a one-recipe corpus with an
Italian cuisine preference and one owned ingredient. -/
theorem composite_score_spec_witness :
    (scoreRecipe { cuisine := some "Italian" } ["tomatoes"] pastaRecipe).preference_match =
        cuisineFactor { cuisine := some "Italian" } pastaRecipe *
          mealTypeFactor { cuisine := some "Italian" } pastaRecipe *
          difficultyFactor { cuisine := some "Italian" } pastaRecipe ∧
      (scoreRecipe { cuisine := some "Italian" } ["tomatoes"] pastaRecipe).score =
        (scoreRecipe { cuisine := some "Italian" } ["tomatoes"] pastaRecipe).ingredient_match * 0.6 +
        (scoreRecipe { cuisine := some "Italian" } ["tomatoes"] pastaRecipe).preference_match * 0.4 ∧
      0 ≤ (scoreRecipe { cuisine := some "Italian" } ["tomatoes"] pastaRecipe).score ∧
      (scoreRecipe { cuisine := some "Italian" } ["tomatoes"] pastaRecipe).score ≤ 1 := by
  have h := composite_score_spec [pastaRecipe] { cuisine := some "Italian" } [] ["tomatoes"]
    (scoreRecipe { cuisine := some "Italian" } ["tomatoes"] pastaRecipe)
    ((List.mem_insertionSort scoreGE).mpr (by simp [candidateList, matches_dietary_restrictions]))
  simpa using h

/-- C4: the ranked output of `filter_recipes` is sorted non-increasing by
composite score, and filtering the output at any fixed score value yields
exactly the same list as filtering the pre-sort candidate list (which is
in corpus order): equal-score candidates keep their corpus relative
order, i.e. the sort is stable. -/
theorem rank_sorted_stable :
    ∀ (recipes : List Recipe) (prefs : Preferences) (R available : List String),
      (filter_recipes recipes prefs R available).Sorted scoreGE ∧
      ∀ s : ℚ,
        (filter_recipes recipes prefs R available).filter (fun c => decide (c.score = s)) =
          (candidateList recipes prefs R available).filter (fun c => decide (c.score = s)) := by
  intro recipes prefs R available
  rw [filter_recipes]
  set l := candidateList recipes prefs R available with hl
  constructor
  · exact List.sorted_insertionSort scoreGE l
  · intro s
    set p : ScoredCandidate → Bool := fun c => decide (c.score = s) with hp
    have hmemp : ∀ {x : ScoredCandidate} {m : List ScoredCandidate}, x ∈ m.filter p → x.score = s := by
      intro x m hx
      have := List.of_mem_filter hx
      simpa [hp] using this
    have hpair : (l.filter p).Pairwise scoreGE := by
      rw [List.pairwise_iff_forall_sublist]
      intro a b hab
      have ha : a ∈ l.filter p := hab.subset (by simp)
      have hb : b ∈ l.filter p := hab.subset (by simp)
      unfold scoreGE
      rw [hmemp ha, hmemp hb]
    have h2 : List.Sublist (l.filter p) (List.insertionSort scoreGE l) :=
      List.sublist_insertionSort hpair (List.filter_sublist l)
    have h3 : List.Sublist (l.filter p) ((List.insertionSort scoreGE l).filter p) := by
      have hff : (l.filter p).filter p = l.filter p :=
        List.filter_eq_self.mpr fun a ha => List.of_mem_filter ha
      simpa [hff] using h2.filter p
    have h4 : ((List.insertionSort scoreGE l).filter p).length = (l.filter p).length :=
      List.Perm.length_eq (List.Perm.filter p (List.perm_insertionSort scoreGE l))
    exact (h3.eq_of_length h4.symm).symm

/-- C5 counterexample: `adapt_recipe` on a recipe dictionary without a
`name` key does not return a value — the source line
`adapted['name'] = f"{adapted['name']} (Adapted)"` raises `KeyError`, so
a missing name is not defaulted to an empty string as claimed. -/
theorem adapt_nameless_raises :
    FallbackAIGenerator.adapt_recipe namelessRecipe [] [] = none := by
  with_unfolding_all rfl

/-- C5 amended: `generate_recipe` and `generate_cooking_tips` are total on
well-typed inputs (their embeddings return plain values with every absent
field defaulted), and `adapt_recipe` returns a value exactly when the
recipe has a `name` field; a missing name raises instead of defaulting. -/
theorem adapt_total_iff_named :
    ∀ (r : Recipe) (a : List String) (subs : List (String × String)),
      (FallbackAIGenerator.adapt_recipe r a subs).isSome ↔ r.name.isSome := by
  intro r a subs
  rcases hn : r.name with _ | n <;> simp [FallbackAIGenerator.adapt_recipe, hn]

/-- C6: the extractor's three pinned behaviors: text with no braces or
brackets yields no value (None, not an exception); an object embedded in
prose is recovered through the first-brace-to-last-brace span; a bare
array is recovered through the array span. -/
theorem extractor_cases :
    GeminiGenerator.parse_json_from_response "no braces or brackets here" = none ∧
    GeminiGenerator.parse_json_from_response "prefix \x7b\"a\":1\x7d suffix" =
      some (Json.obj [("a", Json.num 1)]) ∧
    GeminiGenerator.parse_json_from_response "[\"x\",\"y\"]" =
      some (Json.arr [Json.str "x", Json.str "y"]) := by
  refine ⟨?_, ?_, ?_⟩ <;> with_unfolding_all rfl

/-- C7: the fallback `adapt_recipe` returns a new recipe agreeing with the
input on every field except the ingredients (substitution pass by
case-insensitive exact match, then replacement of unavailable ingredients
by the first owned one), the name (" (Adapted)" appended) and
`ai_generated` (forced true); being a pure function of the embedding, it
leaves the input recipe value unchanged. -/
theorem adapt_frame :
    ∀ (r : Recipe) (a : List String) (subs : List (String × String)) (n : String),
      r.name = some n →
      FallbackAIGenerator.adapt_recipe r a subs =
        some { r with
                ingredients := some (FallbackAIGenerator.replaceUnavailable a
                  (FallbackAIGenerator.applySubstitutions subs (r.ingredients.getD []))),
                name := some (n ++ " (Adapted)"),
                ai_generated := some true } := by
  intro r a subs n hn
  unfold FallbackAIGenerator.adapt_recipe
  rw [hn]

/-- C7 witness: the frame property instantiated on a concrete recipe, one
substitution and one owned ingredient. -/
theorem adapt_frame_witness :
    FallbackAIGenerator.adapt_recipe pastaRecipe ["margarine"] [("pasta", "rice noodles")] =
      some { pastaRecipe with
              ingredients := some (FallbackAIGenerator.replaceUnavailable ["margarine"]
                (FallbackAIGenerator.applySubstitutions [("pasta", "rice noodles")]
                  (pastaRecipe.ingredients.getD []))),
              name := some ("Tomato Pasta" ++ " (Adapted)"),
              ai_generated := some true } :=
  adapt_frame pastaRecipe ["margarine"] [("pasta", "rice noodles")] "Tomato Pasta" rfl

/-- C8: the fallback generator on Italian/Lunch/Easy preferences with no
restrictions and no owned ingredients produces a name containing both
"Italian" and "Lunch", prep 10 and cook 15 minutes, and at least one of
tomatoes/basil/parmesan cheese among the ingredients; in general the
difficulty tiers give Easy = 10/15, Medium = 15/25 and Hard = 20/35. -/
theorem fallback_generate_spec :
    (strIn "Italian"
        ((FallbackAIGenerator.generate_recipe italianLunchEasy [] []).name.getD "") = true ∧
      strIn "Lunch"
        ((FallbackAIGenerator.generate_recipe italianLunchEasy [] []).name.getD "") = true ∧
      (FallbackAIGenerator.generate_recipe italianLunchEasy [] []).prep_time = some 10 ∧
      (FallbackAIGenerator.generate_recipe italianLunchEasy [] []).cook_time = some 15 ∧
      ("tomatoes" ∈ (FallbackAIGenerator.generate_recipe italianLunchEasy [] []).ingredients.getD [] ∨
        "basil" ∈ (FallbackAIGenerator.generate_recipe italianLunchEasy [] []).ingredients.getD [] ∨
        "parmesan cheese" ∈
          (FallbackAIGenerator.generate_recipe italianLunchEasy [] []).ingredients.getD [])) ∧
    (∀ (c m : Option String) (R a : List String),
      (FallbackAIGenerator.generate_recipe
          { cuisine := c, meal_type := m, difficulty := some "Easy" } R a).prep_time = some 10 ∧
      (FallbackAIGenerator.generate_recipe
          { cuisine := c, meal_type := m, difficulty := some "Easy" } R a).cook_time = some 15) ∧
    (∀ (c m : Option String) (R a : List String),
      (FallbackAIGenerator.generate_recipe
          { cuisine := c, meal_type := m, difficulty := some "Medium" } R a).prep_time = some 15 ∧
      (FallbackAIGenerator.generate_recipe
          { cuisine := c, meal_type := m, difficulty := some "Medium" } R a).cook_time = some 25) ∧
    (∀ (c m : Option String) (R a : List String),
      (FallbackAIGenerator.generate_recipe
          { cuisine := c, meal_type := m, difficulty := some "Hard" } R a).prep_time = some 20 ∧
      (FallbackAIGenerator.generate_recipe
          { cuisine := c, meal_type := m, difficulty := some "Hard" } R a).cook_time = some 35) := by
  refine ⟨by decide, ?_, ?_, ?_⟩ <;>
    · intro c m R a
      constructor <;> simp [FallbackAIGenerator.generate_recipe]

lemma restrictionOk_of_tag (d : DietaryInfo) (tags : List String) (rl : String)
    (h : rl ∈ tags) : restrictionOk d tags rl = true := by
  unfold restrictionOk
  split_ifs <;> simp_all [List.elem_iff]

lemma generate_tags (p : Preferences) (R a : List String) :
    (FallbackAIGenerator.generate_recipe p R a).tags = some (R ++ ["ai-generated"]) := rfl

/-- C9: a recipe fabricated by the fallback generator satisfies the very
restrictions it was asked for, whenever those labels come from the
lowercase recognized vocabulary: the restrictions are copied into the
recipe's tags, which the matcher accepts. -/
theorem generated_matches_restrictions :
    ∀ (p : Preferences) (available R : List String),
      (∀ l ∈ R, l ∈ recognizedLabels) →
      matches_dietary_restrictions (FallbackAIGenerator.generate_recipe p R available) R = true := by
  intro p available R hR
  rcases R with _ | ⟨x, xs⟩
  · rfl
  · simp only [matches_dietary_restrictions]
    rw [if_neg (by simp), List.all_eq_true]
    intro l hl
    have hrec := hR l hl
    have hlow : pyLower l = l := by
      simp only [recognizedLabels, List.mem_cons, List.not_mem_nil, or_false] at hrec
      rcases hrec with rfl | rfl | rfl | rfl | rfl | rfl | rfl <;> decide
    rw [hlow, generate_tags]
    exact restrictionOk_of_tag _ _ _ (List.mem_append_left _ hl)

/-- C9 witness: the round trip instantiated at vegan + gluten-free. -/
theorem generated_matches_restrictions_witness :
    matches_dietary_restrictions
      (FallbackAIGenerator.generate_recipe italianLunchEasy ["vegan", "gluten-free"] ["tofu"])
      ["vegan", "gluten-free"] = true :=
  generated_matches_restrictions italianLunchEasy ["tofu"] ["vegan", "gluten-free"]
    (by decide)

/-- C10: the fallback generator sets `nut_free` to true unconditionally —
whatever the preferences, restrictions and owned ingredients — so every
fallback-generated recipe passes a later nut-free dietary filter. -/
theorem generated_nut_free :
    ∀ (p : Preferences) (R available : List String),
      ((FallbackAIGenerator.generate_recipe p R available).dietary_info.getD {}).nut_free =
        some true ∧
      matches_dietary_restrictions (FallbackAIGenerator.generate_recipe p R available)
        ["nut-free"] = true := by
  intro p R available
  constructor
  · rfl
  · simp only [matches_dietary_restrictions]
    rw [if_neg (by simp), List.all_eq_true]
    intro l hl
    simp only [List.mem_singleton] at hl
    subst hl
    have hpy : pyLower "nut-free" = "nut-free" := by decide
    rw [hpy]
    unfold restrictionOk
    rw [if_neg (by decide), if_neg (by decide), if_neg (by decide), if_neg (by decide),
      if_pos (by decide)]
    simp [flag, FallbackAIGenerator.generate_recipe]

end RecipeEngine
